import Mathlib

/-!
Verification of the TradingAgents-CN data-provider and LLM-adapter core.

Shallow embedding of:
* `TushareProvider._normalize_symbol`, `get_stock_daily`, `get_stock_info`,
  `get_financial_data` (src/tradingagents/dataflows/tushare_utils.py);
* `ChatDeepSeek._generate`, `_estimate_input_tokens`, `_estimate_output_tokens`,
  `invoke` (src/tradingagents/llm_adapters/deepseek_adapter.py).

Python strings are modelled as Lean `String` (character lists); pandas
DataFrames as lists of rows; Python dict literals as association lists of
string pairs; a raised exception as `Except.error`; a caught exception as a
`match` that maps `Except.error` to the documented fallback value.
-/

namespace TradingAgents

/-- Python `s.replace(pat, '')` for a three-character pattern `a,b,c`:
left-to-right, non-overlapping deletion of every occurrence, as used by
`symbol.replace('sh.', '').replace('sz.', '')` in `_normalize_symbol`. -/
def stripPat3 (a b c : Char) : List Char → List Char
  | [] => []
  | [x] => [x]
  | [x, y] => [x, y]
  | x :: y :: z :: rest =>
      if x = a ∧ y = b ∧ z = c then stripPat3 a b c rest
      else x :: stripPat3 a b c (y :: z :: rest)

/-- Python `s.replace(ch, '')` for a single-character pattern, as used by
`start_date.replace('-', '')` in `get_stock_daily`. -/
def stripChar (a : Char) : List Char → List Char
  | [] => []
  | x :: rest => if x = a then stripChar a rest else x :: stripChar a rest

/-- The prefix-removal step of `_normalize_symbol`:
`symbol.replace('sh.', '').replace('sz.', '')`. -/
def stripAll (s : String) : String :=
  String.mk (stripPat3 's' 'z' '.' (stripPat3 's' 'h' '.' s.data))

/-- The exchange-choosing branch chain of `_normalize_symbol`:
`startswith('6')` gives `.SH`, `startswith(('0','3'))` gives `.SZ`,
`startswith('8')` gives `.BJ`, everything else defaults to `.SZ`. -/
def exchangeSuffix (s : List Char) : String :=
  if s.head? = some '6' then ".SH"
  else if s.head? = some '0' ∨ s.head? = some '3' then ".SZ"
  else if s.head? = some '8' then ".BJ"
  else ".SZ"

/-- `TushareProvider._normalize_symbol` (tushare_utils.py lines 403-447):
remove `sh.`/`sz.` occurrences, return unchanged if a `.` remains,
otherwise append the exchange code chosen by the leading character. -/
def normalizeSymbol (symbol : String) : String :=
  let s := stripAll symbol
  if '.' ∈ s.data then s else s ++ exchangeSuffix s.data

/-- The decimal digit character for `n % 10`. -/
def digitChar (n : Nat) : Char := Char.ofNat (48 + n % 10)

/-- Two-digit zero-padded field of `strftime`, e.g. `%m`, `%d`. -/
def pad2Chars (n : Nat) : List Char := [digitChar (n / 10), digitChar n]

/-- Four-digit zero-padded field of `strftime`, i.e. `%Y`. -/
def pad4Chars (n : Nat) : List Char :=
  [digitChar (n / 1000), digitChar (n / 100), digitChar (n / 10), digitChar n]

/-- `strftime('%Y%m%d')` on a civil date (compact form, no separators). -/
def formatCompact (y m d : Nat) : String :=
  String.mk (pad4Chars y ++ pad2Chars m ++ pad2Chars d)

/-- A `YYYY-MM-DD` date string, the hyphenated input dialect accepted by
`get_stock_daily`. -/
def formatHyphen (y m d : Nat) : String :=
  String.mk (pad4Chars y ++ ('-' :: pad2Chars m) ++ ('-' :: pad2Chars d))

/-- Civil date (year, month, day) of a day count since 1970-01-01, the
arithmetic behind `datetime` day-level subtraction (standard
days-to-civil conversion). -/
def civilFromDays (z : Nat) : Nat × Nat × Nat :=
  let z' := z + 719468
  let era := z' / 146097
  let doe := z' % 146097
  let yoe := (doe - doe / 1460 + doe / 36524 - doe / 146096) / 365
  let doy := doe - (365 * yoe + yoe / 4 - yoe / 100)
  let mp := (5 * doy + 2) / 153
  let d := doy - (153 * mp + 2) / 5 + 1
  let m := if mp < 10 then mp + 3 else mp - 9
  (yoe + era * 400 + (if m ≤ 2 then 1 else 0), m, d)

/-- `datetime.strftime('%Y%m%d')` on the day numbered `z`. -/
def formatDate (z : Nat) : String :=
  formatCompact (civilFromDays z).1 (civilFromDays z).2.1 (civilFromDays z).2.2

/-- The date-defaulting prologue of `get_stock_daily` (lines 193-209):
`end_date` defaults to today and `start_date` to 365 days before today
(`datetime.now() - timedelta(days=365)`), both as `%Y%m%d`; supplied
dates have their hyphens stripped (`.replace('-', '')`). `today` is the
current day count since 1970-01-01. Returns `(start_date, end_date)`. -/
def resolveDateRange (startDate endDate : Option String) (today : Nat) :
    String × String :=
  (match startDate with
   | none => formatDate (today - 365)
   | some s => String.mk (stripChar '-' s.data),
   match endDate with
   | none => formatDate today
   | some s => String.mk (stripChar '-' s.data))

/-- One row of the `daily` DataFrame: its `trade_date` column plus the
remaining columns as key-value pairs.  `pd.to_datetime` is modelled as
keeping the date string. -/
structure DailyRow where
  tradeDate : String
  fields : List (String × String)
deriving DecidableEq

/-- Insert one row into a `trade_date`-sorted list (ascending). -/
def insertDaily (r : DailyRow) : List DailyRow → List DailyRow
  | [] => [r]
  | x :: xs =>
      if x.tradeDate < r.tradeDate then x :: insertDaily r xs
      else r :: x :: xs

/-- `data.sort_values('trade_date')` on the model rows. -/
def sortDaily : List DailyRow → List DailyRow
  | [] => []
  | x :: xs => insertDaily x (sortDaily xs)

/-- One row of the `stock_basic` DataFrame (the fields `get_stock_info`
reads). -/
structure InfoRow where
  tsCode : String
  name : String
  area : String
  industry : String
  market : String
  listDate : String
deriving DecidableEq

/-- The remote Tushare pro API: each endpoint may raise (`Except.error`)
or return its rows (`None`/empty DataFrames are modelled as `[]`, which
the callers treat the same way). -/
structure TushareApi where
  daily : String → String → String → Except String (List DailyRow)
  stockBasic : String → Except String (List InfoRow)
  balancesheet : String → String → Except String (List (List (String × String)))
  income : String → String → Except String (List (List (String × String)))
  cashflow : String → String → Except String (List (List (String × String)))

/-- `TushareProvider.get_stock_daily` (lines 165-292): guard on the
connection, normalize the symbol, resolve the date window, call
`api.daily`; on success sort by `trade_date`, on any raised exception
return an empty DataFrame.  The cache write (whose own failure is caught
in the source) does not affect the returned value and is omitted. -/
def getStockDaily (api : TushareApi) (connected : Bool) (symbol : String)
    (startDate endDate : Option String) (today : Nat) : List DailyRow :=
  if connected then
    let tsCode := normalizeSymbol symbol
    let dates := resolveDateRange startDate endDate today
    match api.daily tsCode dates.1 dates.2 with
    | Except.error _ => []
    | Except.ok rows => if rows.isEmpty then [] else sortDaily rows
  else []

/-- The fallback record of `get_stock_info`:
`{'symbol': symbol, 'name': f'股票{symbol}', 'source': 'unknown'}`. -/
def infoFallback (symbol : String) : List (String × String) :=
  [("symbol", symbol), ("name", "股票" ++ symbol), ("source", "unknown")]

/-- `TushareProvider.get_stock_info` (lines 294-340): fetch one row of
metadata for the normalized symbol; on a miss, an empty result, or any
raised exception return the fallback record. -/
def getStockInfo (api : TushareApi) (connected : Bool) (symbol : String) :
    List (String × String) :=
  if connected then
    match api.stockBasic (normalizeSymbol symbol) with
    | Except.error _ => infoFallback symbol
    | Except.ok rows =>
        match rows with
        | [] => infoFallback symbol
        | info :: _ =>
            [("symbol", symbol), ("ts_code", info.tsCode), ("name", info.name),
             ("area", info.area), ("industry", info.industry),
             ("market", info.market), ("list_date", info.listDate),
             ("source", "tushare")]
  else infoFallback symbol

/-- The `financials` dict built by `get_financial_data`: each statement as
its `to_dict('records')` list. -/
structure FinRecord where
  balanceSheet : List (List (String × String))
  incomeStatement : List (List (String × String))
  cashFlow : List (List (String × String))
deriving DecidableEq

/-- `TushareProvider.get_financial_data` (lines 342-401): the three
statement fetches are each wrapped in their own try/except mapping a
raised exception (or an empty result) to `[]`.  `none` models the bare
`{}` returned when the provider is not connected. -/
def getFinancialData (api : TushareApi) (connected : Bool)
    (symbol period : String) : Option FinRecord :=
  if connected then
    let tsCode := normalizeSymbol symbol
    let bs := match api.balancesheet tsCode period with
      | Except.ok rows => rows
      | Except.error _ => []
    let inc := match api.income tsCode period with
      | Except.ok rows => rows
      | Except.error _ => []
    let cf := match api.cashflow tsCode period with
      | Except.ok rows => rows
      | Except.error _ => []
    some ⟨bs, inc, cf⟩
  else none

/-- A remote API all of whose endpoints raise, simulating a network
outage. -/
def failApi : TushareApi where
  daily := fun _ _ _ => Except.error "connection refused"
  stockBasic := fun _ => Except.error "connection refused"
  balancesheet := fun _ _ => Except.error "connection refused"
  income := fun _ _ => Except.error "connection refused"
  cashflow := fun _ _ => Except.error "connection refused"

/-- A remote API whose balance-sheet endpoint raises while the income and
cash-flow endpoints succeed with one row each. -/
def bsFailApi : TushareApi where
  daily := fun _ _ _ => Except.ok []
  stockBasic := fun _ => Except.ok []
  balancesheet := fun _ _ => Except.error "timeout"
  income := fun _ _ => Except.ok [[("total_revenue", "1000")]]
  cashflow := fun _ _ => Except.ok [[("net_profit", "100")]]

/-- Message roles of the langchain message classes used by the adapter. -/
inductive Role where
  | system
  | human
  | ai
deriving DecidableEq

/-- A role-tagged chat message (`SystemMessage` / `HumanMessage` /
`AIMessage`, whose `content` the adapter reads as a string). -/
structure ChatMessage where
  role : Role
  content : String
deriving DecidableEq

/-- The `token_usage` block of `result.llm_output`; absent keys default
to 0 via `.get(..., 0)`. -/
structure TokenUsage where
  promptTokens : Nat
  completionTokens : Nat
deriving DecidableEq

/-- One candidate generation of a `ChatResult`. -/
structure ChatGen where
  message : ChatMessage
deriving DecidableEq

/-- The `ChatResult` returned by the underlying dispatch.  `tokenUsage` is
`none` when `result.llm_output` is falsy or its `token_usage` dict is
empty (both read as "no usage block" by `_generate`). -/
structure ChatResult where
  generations : List ChatGen
  tokenUsage : Option TokenUsage
deriving DecidableEq

/-- The token-extraction step of `_generate` (lines 105-114): read
`prompt_tokens`/`completion_tokens` from the usage block, defaulting to
`(0, 0)` when there is none. -/
def extractTokens (r : ChatResult) : Nat × Nat :=
  match r.tokenUsage with
  | some u => (u.promptTokens, u.completionTokens)
  | none => (0, 0)

/-- `ChatDeepSeek._estimate_input_tokens` (lines 168-186): sum of the
content lengths of the input messages, divided by 2, floored at 1. -/
def estimateInputTokens (messages : List ChatMessage) : Nat :=
  let totalChars := (messages.map (fun m => m.content.length)).sum
  max 1 (totalChars / 2)

/-- `ChatDeepSeek._estimate_output_tokens` (lines 188-205): sum of the
content lengths of the generations, divided by 2, floored at 1. -/
def estimateOutputTokens (r : ChatResult) : Nat :=
  let totalChars := (r.generations.map (fun g => g.message.content.length)).sum
  max 1 (totalChars / 2)

/-- The token counts `_generate` goes on to record (lines 105-120): the
extracted pair, replaced by the two estimates exactly when both extracted
counts are zero. -/
def finalTokens (r : ChatResult) (messages : List ChatMessage) : Nat × Nat :=
  let ex := extractTokens r
  if ex.1 = 0 ∧ ex.2 = 0 then (estimateInputTokens messages, estimateOutputTokens r)
  else ex

/-- The observable outcome of one `_generate` call: the returned chat
result, the token counts it computed (which it logs), and whether the
usage-recording branch was entered (i.e. `token_tracker.track_usage` was
called). -/
structure GenOutcome where
  result : ChatResult
  inputTokens : Nat
  outputTokens : Nat
  trackAttempted : Bool
deriving DecidableEq

/-- `ChatDeepSeek._generate` (lines 83-166).  `dispatch` is the outcome of
`super()._generate` (the remote call); `tracker` is the external
`token_tracker.track_usage`, which may itself raise; `hashFn` stands for
Python's `hash(str(messages))` used for the default session id.  The
outer try/except re-raises any dispatch exception unchanged; the inner
try/except swallows a tracker exception (both match arms return the same
value, with only logging differing in the source). -/
def generate (dispatch : Except String ChatResult)
    (messages : List ChatMessage) (trackingEnabled : Bool)
    (tracker : Nat → Nat → String → String → Except String Unit)
    (sessionId analysisType : Option String)
    (hashFn : List ChatMessage → Nat) : Except String GenOutcome :=
  match dispatch with
  | Except.error e => Except.error e
  | Except.ok result =>
      let toks := finalTokens result messages
      if trackingEnabled = true ∧ (toks.1 > 0 ∨ toks.2 > 0) then
        let sid := match sessionId with
          | some s => s
          | none => "deepseek_" ++ toString (hashFn messages % 10000)
        let aty := match analysisType with
          | some a => a
          | none => "stock_analysis"
        match tracker toks.1 toks.2 sid aty with
        | Except.ok _ => Except.ok ⟨result, toks.1, toks.2, true⟩
        | Except.error _ => Except.ok ⟨result, toks.1, toks.2, true⟩
      else Except.ok ⟨result, toks.1, toks.2, false⟩

/-- An element of the list-shaped inputs `invoke` accepts: a message
object, a plain string, a 2-tuple of role and content, or any other
object carrying its `str()` form (tuples of other lengths included). -/
inductive PyObj where
  | msg (m : ChatMessage)
  | str (s : String)
  | pair (role content : String)
  | other (strForm : String)
deriving DecidableEq

/-- The input shapes of `invoke`: a bare string, a list of items, or a
`PromptValue` (whose `to_messages()` is its message list). -/
inductive LMInput where
  | str (s : String)
  | list (items : List PyObj)
  | promptValue (msgs : List ChatMessage)
deriving DecidableEq

/-- `isinstance(item, BaseMessage)` on a list element. -/
def isBaseMessage : PyObj → Bool
  | PyObj.msg _ => true
  | _ => false

/-- The per-item conversion of `invoke`'s fallback loop (lines 239-256):
messages pass through, strings become human messages, recognized role
tuples become the corresponding message (unknown roles default to human),
and anything else is wrapped as a human message of its `str()` form. -/
def convertItem : PyObj → ChatMessage
  | PyObj.msg m => m
  | PyObj.str s => ⟨Role.human, s⟩
  | PyObj.pair role content =>
      if role = "human" then ⟨Role.human, content⟩
      else if role = "ai" then ⟨Role.ai, content⟩
      else if role = "system" then ⟨Role.system, content⟩
      else ⟨Role.human, content⟩
  | PyObj.other strForm => ⟨Role.human, strForm⟩

/-- The input-normalization prologue of `ChatDeepSeek.invoke`
(lines 225-260): a bare string becomes one human message; a list whose
elements are all messages is used as-is; a `PromptValue` contributes its
messages; any other list is converted element by element. -/
def normalizeInput : LMInput → List ChatMessage
  | LMInput.str s => [⟨Role.human, s⟩]
  | LMInput.promptValue msgs => msgs
  | LMInput.list items =>
      if items.all isBaseMessage then
        items.filterMap (fun it => match it with
          | PyObj.msg m => some m
          | _ => none)
      else items.map convertItem

/-- A tracker that always succeeds. -/
def trackerOk : Nat → Nat → String → String → Except String Unit :=
  fun _ _ _ _ => Except.ok ()

/-- A tracker that always raises, simulating a broken cost ledger. -/
def trackerFail : Nat → Nat → String → String → Except String Unit :=
  fun _ _ _ _ => Except.error "pricing table missing"

/-- A hash stand-in for witnesses. -/
def hashZero : List ChatMessage → Nat := fun _ => 0

/-- A response carrying the explicit usage block
`{prompt_tokens: 50, completion_tokens: 20}`. -/
def result5020 : ChatResult :=
  ⟨[⟨⟨Role.ai, "ok"⟩⟩], some ⟨50, 20⟩⟩

/-- A response whose usage block reports zero for both counts, with
4 characters of assistant content. -/
def resultZeroUsage : ChatResult :=
  ⟨[⟨⟨Role.ai, "abcd"⟩⟩], some ⟨0, 0⟩⟩

/-- A response with no usage block and 40 characters of assistant
content. -/
def resultNoUsage : ChatResult :=
  ⟨[⟨⟨Role.ai, "0123456789012345678901234567890123456789"⟩⟩], none⟩

/-- A two-character human input message for witnesses. -/
def messagesHi : List ChatMessage := [⟨Role.human, "hi"⟩]

theorem stripPat3_eq_self (a b c : Char) :
    ∀ l : List Char, (∀ x ∈ l, x ≠ a) → stripPat3 a b c l = l
  | [], _ => rfl
  | [_], _ => rfl
  | [_, _], _ => rfl
  | x :: y :: z :: rest, h => by
      have hx : x ≠ a := h x (by simp)
      rw [stripPat3, if_neg (by simp [hx])]
      have htail := stripPat3_eq_self a b c (y :: z :: rest)
        (fun t ht => h t (List.mem_cons_of_mem x ht))
      rw [htail]

theorem stripChar_append (a : Char) (l₁ l₂ : List Char) :
    stripChar a (l₁ ++ l₂) = stripChar a l₁ ++ stripChar a l₂ := by
  induction l₁ with
  | nil => rfl
  | cons x rest ih =>
      by_cases hx : x = a <;> simp [stripChar, hx, ih]

theorem stripChar_eq_self (a : Char) (l : List Char) (h : ∀ x ∈ l, x ≠ a) :
    stripChar a l = l := by
  induction l with
  | nil => rfl
  | cons x rest ih =>
      have hx : x ≠ a := h x (by simp)
      simp [stripChar, hx, ih fun t ht => h t (List.mem_cons_of_mem x ht)]

theorem stripAll_digits (s : String) (h : ∀ ch ∈ s.data, ch.isDigit) :
    stripAll s = s := by
  have h1 : stripPat3 's' 'h' '.' s.data = s.data :=
    stripPat3_eq_self 's' 'h' '.' s.data
      (fun x hx => by intro hxa; subst hxa; simpa using h _ hx)
  have h2 : stripPat3 's' 'z' '.' s.data = s.data :=
    stripPat3_eq_self 's' 'z' '.' s.data
      (fun x hx => by intro hxa; subst hxa; simpa using h _ hx)
  simp [stripAll, h1, h2]

theorem normalizeSymbol_contains_dot (s : String) :
    '.' ∈ (normalizeSymbol s).data := by
  unfold normalizeSymbol
  by_cases h : '.' ∈ (stripAll s).data
  · simp [h]
  · have : ∀ t : List Char, '.' ∈ (stripAll s ++ exchangeSuffix t).data := by
      intro t
      unfold exchangeSuffix
      by_cases h6 : t.head? = some '6' <;>
        by_cases h03 : t.head? = some '0' ∨ t.head? = some '3' <;>
          by_cases h8 : t.head? = some '8' <;>
            simp [h6, h03, h8, String.data_append]
    simpa [h] using this (stripAll s).data

theorem normalizeSymbol_fixed (t : String)
    (h1 : '.' ∈ t.data) (h2 : stripAll t = t) :
    normalizeSymbol t = t := by
  unfold normalizeSymbol
  rw [h2, if_pos h1]

theorem digitChar_isDigit (n : Nat) : (digitChar n).isDigit = true := by
  have h : n % 10 = 0 ∨ n % 10 = 1 ∨ n % 10 = 2 ∨ n % 10 = 3 ∨ n % 10 = 4 ∨
      n % 10 = 5 ∨ n % 10 = 6 ∨ n % 10 = 7 ∨ n % 10 = 8 ∨ n % 10 = 9 := by omega
  unfold digitChar
  rcases h with h|h|h|h|h|h|h|h|h|h <;> rw [h] <;> decide

theorem digitChar_ne_hyphen (n : Nat) : digitChar n ≠ '-' := by
  have h : n % 10 = 0 ∨ n % 10 = 1 ∨ n % 10 = 2 ∨ n % 10 = 3 ∨ n % 10 = 4 ∨
      n % 10 = 5 ∨ n % 10 = 6 ∨ n % 10 = 7 ∨ n % 10 = 8 ∨ n % 10 = 9 := by omega
  unfold digitChar
  rcases h with h|h|h|h|h|h|h|h|h|h <;> rw [h] <;> decide

theorem pad2_ne_hyphen (n : Nat) : ∀ x ∈ pad2Chars n, x ≠ '-' := by
  intro x hx
  simp only [pad2Chars, List.mem_cons, List.not_mem_nil, or_false] at hx
  rcases hx with h | h <;> subst h <;> exact digitChar_ne_hyphen _

theorem pad4_ne_hyphen (n : Nat) : ∀ x ∈ pad4Chars n, x ≠ '-' := by
  intro x hx
  simp only [pad4Chars, List.mem_cons, List.not_mem_nil, or_false] at hx
  rcases hx with h | h | h | h <;> subst h <;> exact digitChar_ne_hyphen _

theorem formatCompact_length (y m d : Nat) : (formatCompact y m d).length = 8 := by
  simp [formatCompact, pad4Chars, pad2Chars, String.length]

theorem pad2_digits (n : Nat) : ∀ x ∈ pad2Chars n, x.isDigit = true := by
  intro x hx
  simp only [pad2Chars, List.mem_cons, List.not_mem_nil, or_false] at hx
  rcases hx with h | h <;> subst h <;> exact digitChar_isDigit _

theorem pad4_digits (n : Nat) : ∀ x ∈ pad4Chars n, x.isDigit = true := by
  intro x hx
  simp only [pad4Chars, List.mem_cons, List.not_mem_nil, or_false] at hx
  rcases hx with h | h | h | h <;> subst h <;> exact digitChar_isDigit _

theorem formatCompact_digits (y m d : Nat) :
    ∀ ch ∈ (formatCompact y m d).data, ch.isDigit = true := by
  intro ch hch
  rcases List.mem_append.mp hch with h | h
  · rcases List.mem_append.mp h with h2 | h2
    · exact pad4_digits y ch h2
    · exact pad2_digits m ch h2
  · exact pad2_digits d ch h

theorem formatDate_length (z : Nat) : (formatDate z).length = 8 :=
  formatCompact_length _ _ _

theorem formatDate_digits (z : Nat) :
    ∀ ch ∈ (formatDate z).data, ch.isDigit = true :=
  formatCompact_digits _ _ _

theorem stripChar_cons_self (a : Char) (l : List Char) :
    stripChar a (a :: l) = stripChar a l := by
  simp [stripChar]

theorem stripChar_formatHyphen (y m d : Nat) :
    String.mk (stripChar '-' (formatHyphen y m d).data) = formatCompact y m d := by
  have h4 := stripChar_eq_self '-' (pad4Chars y) (pad4_ne_hyphen y)
  have hm2 := stripChar_eq_self '-' (pad2Chars m) (pad2_ne_hyphen m)
  have hd2 := stripChar_eq_self '-' (pad2Chars d) (pad2_ne_hyphen d)
  show String.mk (stripChar '-'
      (pad4Chars y ++ ('-' :: pad2Chars m) ++ ('-' :: pad2Chars d))) = _
  rw [stripChar_append, stripChar_append, h4, stripChar_cons_self,
    stripChar_cons_self, hm2, hd2]
  rfl

theorem finalTokens_of_ne (r : ChatResult) (messages : List ChatMessage)
    (h : extractTokens r ≠ (0, 0)) :
    finalTokens r messages = extractTokens r := by
  unfold finalTokens
  rw [if_neg]
  rintro ⟨h1, h2⟩
  exact h (Prod.ext h1 h2)

theorem finalTokens_of_eq (r : ChatResult) (messages : List ChatMessage)
    (h : extractTokens r = (0, 0)) :
    finalTokens r messages = (estimateInputTokens messages, estimateOutputTokens r) := by
  unfold finalTokens
  rw [if_pos]
  exact ⟨by rw [h], by rw [h]⟩

theorem generate_ok_eq (r : ChatResult) (messages : List ChatMessage)
    (trackingEnabled : Bool)
    (tracker : Nat → Nat → String → String → Except String Unit)
    (sessionId analysisType : Option String) (hashFn : List ChatMessage → Nat) :
    generate (Except.ok r) messages trackingEnabled tracker sessionId analysisType hashFn =
      Except.ok ⟨r, (finalTokens r messages).1, (finalTokens r messages).2,
        decide (trackingEnabled = true ∧
          ((finalTokens r messages).1 > 0 ∨ (finalTokens r messages).2 > 0))⟩ := by
  simp only [generate]
  by_cases hc : trackingEnabled = true ∧
      ((finalTokens r messages).1 > 0 ∨ (finalTokens r messages).2 > 0)
  · rw [if_pos hc]
    have hdec : decide (trackingEnabled = true ∧
        ((finalTokens r messages).1 > 0 ∨ (finalTokens r messages).2 > 0)) = true :=
      decide_eq_true hc
    rw [hdec]
    cases tracker (finalTokens r messages).1 (finalTokens r messages).2
      (match sessionId with
       | some s => s
       | none => "deepseek_" ++ toString (hashFn messages % 10000))
      (match analysisType with
       | some a => a
       | none => "stock_analysis") <;> rfl
  · rw [if_neg hc]
    have hdec : decide (trackingEnabled = true ∧
        ((finalTokens r messages).1 > 0 ∨ (finalTokens r messages).2 > 0)) = false :=
      decide_eq_false hc
    rw [hdec]

theorem generate_ok_out (r : ChatResult) (messages : List ChatMessage)
    (trackingEnabled : Bool)
    (tracker : Nat → Nat → String → String → Except String Unit)
    (sessionId analysisType : Option String) (hashFn : List ChatMessage → Nat)
    (out : GenOutcome)
    (hgen : generate (Except.ok r) messages trackingEnabled tracker
      sessionId analysisType hashFn = Except.ok out) :
    out = ⟨r, (finalTokens r messages).1, (finalTokens r messages).2,
      decide (trackingEnabled = true ∧
        ((finalTokens r messages).1 > 0 ∨ (finalTokens r messages).2 > 0))⟩ := by
  have h := generate_ok_eq r messages trackingEnabled tracker sessionId analysisType hashFn
  rw [hgen] at h
  exact Except.ok.inj h

theorem one_le_estimateInput (messages : List ChatMessage) :
    1 ≤ estimateInputTokens messages := by
  unfold estimateInputTokens
  exact Nat.le_max_left _ _

theorem one_le_estimateOutput (r : ChatResult) :
    1 ≤ estimateOutputTokens r := by
  unfold estimateOutputTokens
  exact Nat.le_max_left _ _

/-- C1 (amended): every public data-provider operation is best-effort —
when the remote call raises, `get_stock_daily` returns an empty table,
`get_stock_info` returns the placeholder record
`{symbol, name: "股票<symbol>", source: "unknown"}`, and
`get_financial_data` returns a record of empty statement lists; no
exception propagates. -/
theorem provider_best_effort (api : TushareApi) (symbol period : String)
    (startDate endDate : Option String) (today : Nat) (e1 e2 e3 e4 e5 : String)
    (hd : api.daily (normalizeSymbol symbol)
      (resolveDateRange startDate endDate today).1
      (resolveDateRange startDate endDate today).2 = Except.error e1)
    (hb : api.stockBasic (normalizeSymbol symbol) = Except.error e2)
    (hbs : api.balancesheet (normalizeSymbol symbol) period = Except.error e3)
    (hinc : api.income (normalizeSymbol symbol) period = Except.error e4)
    (hcf : api.cashflow (normalizeSymbol symbol) period = Except.error e5) :
    getStockDaily api true symbol startDate endDate today = [] ∧
    getStockInfo api true symbol = infoFallback symbol ∧
    getFinancialData api true symbol period = some ⟨[], [], []⟩ := by
  refine ⟨?_, ?_, ?_⟩
  · simp [getStockDaily, hd]
  · simp [getStockInfo, hb]
  · simp [getFinancialData, hbs, hinc, hcf]

/-- C1 counterexample: on a simulated remote failure, the `get_stock_info`
placeholder name is `股票600519`, not `Unknown600519` as the claim
states. -/
theorem provider_best_effort_cex :
    getStockInfo failApi true "600519" =
      [("symbol", "600519"), ("name", "股票600519"), ("source", "unknown")] ∧
    getStockInfo failApi true "600519" ≠
      [("symbol", "600519"), ("name", "Unknown600519"), ("source", "unknown")] := by
  decide

/-- C1 witness: the amended fallbacks at a concrete failing API. -/
theorem provider_best_effort_witness :
    getStockDaily failApi true "600519" none none 20454 = [] ∧
    getStockInfo failApi true "600519" = infoFallback "600519" ∧
    getFinancialData failApi true "600519" "20231231" = some ⟨[], [], []⟩ :=
  provider_best_effort failApi "600519" "20231231" none none 20454
    "connection refused" "connection refused" "connection refused"
    "connection refused" "connection refused" rfl rfl rfl rfl rfl

/-- C4 (amended): every `_normalize_symbol` output contains the exchange
separator; a symbol containing the separator is returned unchanged
provided the `sh.`/`sz.` stripping step also leaves it unchanged; hence
normalization is idempotent on every input whose normalized form is
unaffected by the stripping step. -/
theorem normalize_idempotent (s t : String) :
    '.' ∈ (normalizeSymbol s).data ∧
    ('.' ∈ t.data → stripAll t = t → normalizeSymbol t = t) ∧
    (stripAll (normalizeSymbol s) = normalizeSymbol s →
      normalizeSymbol (normalizeSymbol s) = normalizeSymbol s) :=
  ⟨normalizeSymbol_contains_dot s,
   fun h1 h2 => normalizeSymbol_fixed t h1 h2,
   fun h => normalizeSymbol_fixed _ (normalizeSymbol_contains_dot s) h⟩

/-- C4 counterexample: `"sh.600000"` contains `'.'` yet is not returned
unchanged, and `_normalize_symbol` is not idempotent at `"ssz.h.x"`
(deleting `sz.` creates a fresh `sh.` occurrence: the first pass yields
`"sh.x"`, the second `"x.SZ"`). -/
theorem normalize_idempotent_cex :
    ('.' ∈ "sh.600000".data ∧
      normalizeSymbol "sh.600000" = "600000.SH" ∧
      normalizeSymbol "sh.600000" ≠ "sh.600000") ∧
    normalizeSymbol (normalizeSymbol "ssz.h.x") ≠ normalizeSymbol "ssz.h.x" := by
  decide

/-- C4 witness: idempotence at concrete already-suffixed symbols. -/
theorem normalize_idempotent_witness :
    normalizeSymbol "000001.SZ" = "000001.SZ" ∧
    normalizeSymbol (normalizeSymbol "600sz.000") = normalizeSymbol "600sz.000" :=
  ⟨(normalize_idempotent "600sz.000" "000001.SZ").2.1 (by decide) (by decide),
   (normalize_idempotent "600sz.000" "000001.SZ").2.2 (by decide)⟩

/-- C5: on a non-empty bare digit-string, `_normalize_symbol` appends the
exchange code chosen by the first character: `6` gives `.SH`, `0`/`3`
give `.SZ`, `8` gives `.BJ`, any other leading character gives `.SZ`. -/
theorem normalize_digit_rule (s : String)
    (_hne : s.data ≠ []) (hdig : ∀ ch ∈ s.data, ch.isDigit = true) :
    (s.data.head? = some '6' → normalizeSymbol s = s ++ ".SH") ∧
    (s.data.head? = some '0' ∨ s.data.head? = some '3' →
      normalizeSymbol s = s ++ ".SZ") ∧
    (s.data.head? = some '8' → normalizeSymbol s = s ++ ".BJ") ∧
    (∀ ch : Char, s.data.head? = some ch →
      ch ∉ (['6', '0', '3', '8'] : List Char) → normalizeSymbol s = s ++ ".SZ") := by
  have hdot : '.' ∉ s.data := fun hm => by simpa using hdig '.' hm
  have hstrip : stripAll s = s := stripAll_digits s hdig
  have hbase : normalizeSymbol s = s ++ exchangeSuffix s.data := by
    unfold normalizeSymbol
    rw [hstrip, if_neg hdot]
  refine ⟨?_, ?_, ?_, ?_⟩
  · intro h6
    rw [hbase]
    unfold exchangeSuffix
    rw [h6, if_pos rfl]
  · intro h03
    rw [hbase]
    unfold exchangeSuffix
    rcases h03 with h | h <;> rw [h] <;>
      rw [if_neg (by decide), if_pos (by decide)]
  · intro h8
    rw [hbase]
    unfold exchangeSuffix
    rw [h8, if_neg (by decide), if_neg (by decide), if_pos rfl]
  · intro ch hch hnotin
    have h6 : ch ≠ '6' := fun he => hnotin (by rw [he]; decide)
    have h0 : ch ≠ '0' := fun he => hnotin (by rw [he]; decide)
    have h3 : ch ≠ '3' := fun he => hnotin (by rw [he]; decide)
    have h8 : ch ≠ '8' := fun he => hnotin (by rw [he]; decide)
    rw [hbase]
    unfold exchangeSuffix
    rw [hch, if_neg (by simp [h6]), if_neg (by simp [h0, h3]),
      if_neg (by simp [h8])]

/-- C5 witness: the four branches at concrete digit-strings. -/
theorem normalize_digit_rule_witness :
    normalizeSymbol "600519" = "600519" ++ ".SH" ∧
    normalizeSymbol "000001" = "000001" ++ ".SZ" ∧
    normalizeSymbol "830799" = "830799" ++ ".BJ" ∧
    normalizeSymbol "430047" = "430047" ++ ".SZ" :=
  ⟨(normalize_digit_rule "600519" (by decide) (by decide)).1 rfl,
   (normalize_digit_rule "000001" (by decide) (by decide)).2.1 (Or.inl rfl),
   (normalize_digit_rule "830799" (by decide) (by decide)).2.2.1 rfl,
   (normalize_digit_rule "430047" (by decide) (by decide)).2.2.2 '4' rfl (by decide)⟩

/-- C6: with both dates omitted, `get_stock_daily` requests exactly the
window from 365 days before today through today, both endpoints as
8-character all-digit `YYYYMMDD` strings; supplied `YYYY-MM-DD` dates
have their hyphens stripped to the compact form. -/
theorem daily_date_window (today : Nat) (_h365 : 365 ≤ today)
    (y1 m1 d1 y2 m2 d2 : Nat) :
    resolveDateRange none none today =
      (formatDate (today - 365), formatDate today) ∧
    (formatDate (today - 365)).length = 8 ∧ (formatDate today).length = 8 ∧
    (∀ ch ∈ (formatDate (today - 365)).data, ch.isDigit = true) ∧
    (∀ ch ∈ (formatDate today).data, ch.isDigit = true) ∧
    resolveDateRange (some (formatHyphen y1 m1 d1))
        (some (formatHyphen y2 m2 d2)) today =
      (formatCompact y1 m1 d1, formatCompact y2 m2 d2) := by
  refine ⟨rfl, formatDate_length _, formatDate_length _,
    formatDate_digits _, formatDate_digits _, ?_⟩
  show (String.mk (stripChar '-' (formatHyphen y1 m1 d1).data),
    String.mk (stripChar '-' (formatHyphen y2 m2 d2).data)) = _
  rw [stripChar_formatHyphen, stripChar_formatHyphen]

/-- C6 witness: the window at day 20454 (2026-01-01) and at concrete
hyphenated inputs. -/
theorem daily_date_window_witness :
    resolveDateRange none none 20454 =
      (formatDate (20454 - 365), formatDate 20454) ∧
    (formatDate (20454 - 365)).length = 8 ∧ (formatDate 20454).length = 8 ∧
    (∀ ch ∈ (formatDate (20454 - 365)).data, ch.isDigit = true) ∧
    (∀ ch ∈ (formatDate 20454).data, ch.isDigit = true) ∧
    resolveDateRange (some (formatHyphen 2024 5 7))
        (some (formatHyphen 2025 10 12)) 20454 =
      (formatCompact 2024 5 7, formatCompact 2025 10 12) :=
  daily_date_window 20454 (by decide) 2024 5 7 2025 10 12

/-- C7: the three statement fetches of `get_financial_data` fail
independently — a failing balance-sheet sub-call alongside successful,
non-empty income and cash-flow sub-calls yields an empty balance-sheet
list and the two non-empty statement lists. -/
theorem financial_statements_independent (api : TushareApi)
    (symbol period eb : String)
    (l1 l2 : List (List (String × String)))
    (hbs : api.balancesheet (normalizeSymbol symbol) period = Except.error eb)
    (hinc : api.income (normalizeSymbol symbol) period = Except.ok l1)
    (h1 : l1 ≠ [])
    (hcf : api.cashflow (normalizeSymbol symbol) period = Except.ok l2)
    (h2 : l2 ≠ []) :
    getFinancialData api true symbol period = some ⟨[], l1, l2⟩ ∧
    l1 ≠ [] ∧ l2 ≠ [] := by
  refine ⟨?_, h1, h2⟩
  simp [getFinancialData, hbs, hinc, hcf]

/-- C7 witness: a concrete API whose balance-sheet endpoint raises while
the other two endpoints return one row each. -/
theorem financial_statements_independent_witness :
    getFinancialData bsFailApi true "600519" "20231231" =
      some ⟨[], [[("total_revenue", "1000")]], [[("net_profit", "100")]]⟩ ∧
    ([[("total_revenue", "1000")]] : List (List (String × String))) ≠ [] ∧
    ([[("net_profit", "100")]] : List (List (String × String))) ≠ [] :=
  financial_statements_independent bsFailApi "600519" "20231231" "timeout"
    [[("total_revenue", "1000")]] [[("net_profit", "100")]]
    rfl rfl (by decide) rfl (by decide)

/-- C9: `_normalize_symbol` deletes `sh.`/`sz.` occurrences anywhere in
the input, not only as a leading marker — `"600sz.000"` normalizes to
`"600000.SH"` — and in general the output is the suffix rule applied to
the stripped input. -/
theorem normalize_strips_anywhere (s : String) :
    normalizeSymbol "600sz.000" = "600000.SH" ∧
    normalizeSymbol "000sh.001" = "000001.SZ" ∧
    normalizeSymbol s =
      (if '.' ∈ (stripAll s).data then stripAll s
       else stripAll s ++ exchangeSuffix (stripAll s).data) :=
  ⟨by decide, by decide, rfl⟩

/-- C2: in `_generate`, a dispatch exception propagates to the caller
unchanged, while an exception raised strictly inside the usage-recording
step (a tracker that always raises) is swallowed and the successful chat
result is still returned. -/
theorem metered_error_policy (e terr : String) (r : ChatResult)
    (messages : List ChatMessage) (trackingEnabled : Bool)
    (tracker : Nat → Nat → String → String → Except String Unit)
    (sessionId analysisType : Option String) (hashFn : List ChatMessage → Nat)
    (_htr : ∀ i o sid aty, tracker i o sid aty = Except.error terr) :
    generate (Except.error e) messages trackingEnabled tracker
        sessionId analysisType hashFn = Except.error e ∧
    ∃ out : GenOutcome,
      generate (Except.ok r) messages trackingEnabled tracker
          sessionId analysisType hashFn = Except.ok out ∧
      out.result = r :=
  ⟨rfl, ⟨_, generate_ok_eq r messages trackingEnabled tracker
    sessionId analysisType hashFn, rfl⟩⟩

/-- C2 witness: at a concrete dispatch error and an always-raising
tracker. -/
theorem metered_error_policy_witness :
    generate (Except.error "boom") messagesHi true trackerFail
        none none hashZero = Except.error "boom" ∧
    ∃ out : GenOutcome,
      generate (Except.ok result5020) messagesHi true trackerFail
          none none hashZero = Except.ok out ∧
      out.result = result5020 :=
  metered_error_policy "boom" "pricing table missing" result5020 messagesHi
    true trackerFail none none hashZero (fun _ _ _ _ => rfl)

/-- C3 (amended): if the response's usage block carries counts that are
not both zero, the recorded counts equal them exactly; otherwise (no
usage block, or both reported counts zero) both counts are estimated as
character length divided by 2, floored at 1 even for empty content. -/
theorem usage_extraction_policy (r : ChatResult) (messages : List ChatMessage)
    (trackingEnabled : Bool)
    (tracker : Nat → Nat → String → String → Except String Unit)
    (sessionId analysisType : Option String) (hashFn : List ChatMessage → Nat)
    (out : GenOutcome)
    (hgen : generate (Except.ok r) messages trackingEnabled tracker
      sessionId analysisType hashFn = Except.ok out) :
    (extractTokens r ≠ (0, 0) →
      (out.inputTokens, out.outputTokens) = extractTokens r) ∧
    (extractTokens r = (0, 0) →
      out.inputTokens =
        max 1 ((messages.map fun m => m.content.length).sum / 2) ∧
      out.outputTokens =
        max 1 ((r.generations.map fun g => g.message.content.length).sum / 2)) := by
  have hout := generate_ok_out r messages trackingEnabled tracker
    sessionId analysisType hashFn out hgen
  subst hout
  constructor
  · intro hne
    rw [finalTokens_of_ne r messages hne]
  · intro heq
    rw [finalTokens_of_eq r messages heq]
    exact ⟨rfl, rfl⟩

/-- C3 counterexample: a response whose explicit usage block reports
`{prompt_tokens: 0, completion_tokens: 0}` is not recorded as `(0, 0)`:
with a 2-character input message and 4 characters of assistant content
the recorded counts are the estimates `(1, 2)`. -/
theorem usage_extraction_policy_cex :
    resultZeroUsage.tokenUsage = some ⟨0, 0⟩ ∧
    generate (Except.ok resultZeroUsage) messagesHi true trackerOk
        none none hashZero = Except.ok ⟨resultZeroUsage, 1, 2, true⟩ ∧
    ((1, 2) : Nat × Nat) ≠ (0, 0) :=
  ⟨rfl, rfl, by decide⟩

/-- C3 witness: a usage block of `{prompt_tokens: 50, completion_tokens:
20}` is recorded exactly, and a response with no usage block and 40
characters of assistant content estimates 20 output tokens and 1 input
token from the 2-character input. -/
theorem usage_extraction_policy_witness :
    (extractTokens result5020 ≠ (0, 0) ∧
      ((⟨result5020, 50, 20, true⟩ : GenOutcome).inputTokens,
       (⟨result5020, 50, 20, true⟩ : GenOutcome).outputTokens) =
        extractTokens result5020) ∧
    (extractTokens resultNoUsage = (0, 0) ∧
      (⟨resultNoUsage, 1, 20, true⟩ : GenOutcome).inputTokens =
        max 1 ((messagesHi.map fun m => m.content.length).sum / 2) ∧
      (⟨resultNoUsage, 1, 20, true⟩ : GenOutcome).outputTokens =
        max 1 ((resultNoUsage.generations.map
          fun g => g.message.content.length).sum / 2)) :=
  ⟨⟨by decide,
    (usage_extraction_policy result5020 messagesHi true trackerOk none none
      hashZero ⟨result5020, 50, 20, true⟩ rfl).1 (by decide)⟩,
   ⟨rfl,
    (usage_extraction_policy resultNoUsage messagesHi true trackerOk none none
      hashZero ⟨resultNoUsage, 1, 20, true⟩ rfl).2 rfl⟩⟩

/-- C8: `invoke`'s input normalization maps a bare string to one
human-role message; a list containing the tuple `("system", x)` yields a
system-role message with content `x`; a list element that is none of
message, string, or recognized 2-tuple is wrapped as a human-role message
of its string form. -/
theorem invoke_input_normalization (s c o : String) (items : List PyObj)
    (hp : PyObj.pair "system" c ∈ items) (ho : PyObj.other o ∈ items) :
    normalizeInput (LMInput.str s) = [⟨Role.human, s⟩] ∧
    (⟨Role.system, c⟩ : ChatMessage) ∈ normalizeInput (LMInput.list items) ∧
    (⟨Role.human, o⟩ : ChatMessage) ∈ normalizeInput (LMInput.list items) := by
  have hall : items.all isBaseMessage = false := by
    cases hb : items.all isBaseMessage
    · rfl
    · have := List.all_eq_true.mp hb _ hp
      simp [isBaseMessage] at this
  have hlist : normalizeInput (LMInput.list items) = items.map convertItem := by
    simp [normalizeInput, hall]
  refine ⟨rfl, ?_, ?_⟩
  · rw [hlist]
    have hc : convertItem (PyObj.pair "system" c) = ⟨Role.system, c⟩ := by
      have e1 : ("system" : String) ≠ "human" := by decide
      have e2 : ("system" : String) ≠ "ai" := by decide
      simp [convertItem, e1, e2]
    exact hc ▸ List.mem_map_of_mem convertItem hp
  · rw [hlist]
    exact List.mem_map_of_mem convertItem ho

/-- C8 witness: a concrete mixed list with a system tuple and an
unparseable element. -/
theorem invoke_input_normalization_witness :
    normalizeInput (LMInput.str "hello") = [⟨Role.human, "hello"⟩] ∧
    (⟨Role.system, "x"⟩ : ChatMessage) ∈
      normalizeInput (LMInput.list [PyObj.pair "system" "x", PyObj.other "42"]) ∧
    (⟨Role.human, "42"⟩ : ChatMessage) ∈
      normalizeInput (LMInput.list [PyObj.pair "system" "x", PyObj.other "42"]) :=
  invoke_input_normalization "hello" "x" "42"
    [PyObj.pair "system" "x", PyObj.other "42"] (by decide) (by decide)

/-- C10: estimation is triggered exactly when both extracted counts are
zero — an explicit `{0, 0}` usage block is overridden by estimates each
at least 1, a usage block with one zero and one positive count is used
as-is — and with tracking enabled every successful dispatch leads to an
attempted usage record. -/
theorem estimation_trigger (r : ChatResult) (messages : List ChatMessage)
    (tracker : Nat → Nat → String → String → Except String Unit)
    (sessionId analysisType : Option String) (hashFn : List ChatMessage → Nat)
    (out : GenOutcome)
    (hgen : generate (Except.ok r) messages true tracker
      sessionId analysisType hashFn = Except.ok out) :
    (extractTokens r = (0, 0) →
      out.inputTokens = estimateInputTokens messages ∧
      out.outputTokens = estimateOutputTokens r ∧
      1 ≤ out.inputTokens ∧ 1 ≤ out.outputTokens) ∧
    (extractTokens r ≠ (0, 0) →
      (out.inputTokens, out.outputTokens) = extractTokens r) ∧
    out.trackAttempted = true := by
  have hout := generate_ok_out r messages true tracker
    sessionId analysisType hashFn out hgen
  subst hout
  have hpos : (finalTokens r messages).1 > 0 ∨ (finalTokens r messages).2 > 0 := by
    by_cases heq : extractTokens r = (0, 0)
    · rw [finalTokens_of_eq r messages heq]
      exact Or.inl (one_le_estimateInput messages)
    · rw [finalTokens_of_ne r messages heq]
      rcases Nat.eq_zero_or_pos (extractTokens r).1 with h1 | h1
      · rcases Nat.eq_zero_or_pos (extractTokens r).2 with h2 | h2
        · exact absurd (Prod.ext h1 h2) heq
        · exact Or.inr h2
      · exact Or.inl h1
  refine ⟨?_, ?_, ?_⟩
  · intro heq
    rw [finalTokens_of_eq r messages heq]
    exact ⟨rfl, rfl, one_le_estimateInput messages, one_le_estimateOutput r⟩
  · intro hne
    rw [finalTokens_of_ne r messages hne]
  · exact decide_eq_true ⟨rfl, hpos⟩

/-- C10 witness: the `{0, 0}` usage block at a concrete response is
overridden by the estimates `(1, 2)`, each at least 1. -/
theorem estimation_trigger_witness :
    extractTokens resultZeroUsage = (0, 0) ∧
    ((⟨resultZeroUsage, 1, 2, true⟩ : GenOutcome).inputTokens =
        estimateInputTokens messagesHi ∧
      (⟨resultZeroUsage, 1, 2, true⟩ : GenOutcome).outputTokens =
        estimateOutputTokens resultZeroUsage ∧
      1 ≤ (⟨resultZeroUsage, 1, 2, true⟩ : GenOutcome).inputTokens ∧
      1 ≤ (⟨resultZeroUsage, 1, 2, true⟩ : GenOutcome).outputTokens) :=
  ⟨rfl,
   (estimation_trigger resultZeroUsage messagesHi trackerOk none none hashZero
     ⟨resultZeroUsage, 1, 2, true⟩ rfl).1 rfl⟩

end TradingAgents
